import Mathlib

/-!
Verification development for the incremental/generational GC core of this
repository (SpiderMonkey with an OMR-backed heap).  The definitions below are a
shallow embedding of the C++ source:

* the `AllocKind` registry and its static metadata tables
  (`gc/Heap.h`, `jsgc.h`);
* the cell header encoding `setAllocKind` / `getAllocKind` and the
  `getTraceKind` switch (`gc/Heap.h`);
* the allocator entry points `js::Allocate` (`gc/Allocator.cpp`, both the
  current `JSContext` revision and the older `ExclusiveContext` revision);
* the slice budget (`jsgc.cpp`), the incremental driver entry
  (`gc/GCRuntime.h`, `jsgc.cpp`) and the write-barrier / mark entry points
  (`gc/Heap.h`).

Machine integers are modelled as `Nat` with explicit reductions modulo `2 ^ 64`
where the C code manipulates `uintptr_t` values.  External OMR collector state
(the mark store queried by `IsMarkedInternalCommon`) is modelled as an explicit
set of marked cell identifiers threaded through the repository functions.
-/

namespace GeckoGC

/--
The GC allocation kinds, from `enum class AllocKind : uintptr_t` in `gc/Heap.h`.
The C enum also declares the aliases `FIRST = 0`, `OBJECT_FIRST = FIRST`,
`OBJECT_LIMIT`, `OBJECT_LAST = OBJECT_LIMIT - 1`, `LIMIT` and `LAST = LIMIT - 1`;
the constructors below are exactly the distinct valid kinds.  Because
`OBJECT_LAST` is set back to `OBJECT_LIMIT - 1 = 13`, `SCRIPT` receives the
value `14 = OBJECT_LIMIT` and the valid kinds carry the values `0` to `28`,
with `LIMIT = 29`.
-/
inductive AllocKind where
  | FUNCTION
  | FUNCTION_EXTENDED
  | OBJECT0
  | OBJECT0_BACKGROUND
  | OBJECT2
  | OBJECT2_BACKGROUND
  | OBJECT4
  | OBJECT4_BACKGROUND
  | OBJECT8
  | OBJECT8_BACKGROUND
  | OBJECT12
  | OBJECT12_BACKGROUND
  | OBJECT16
  | OBJECT16_BACKGROUND
  | SCRIPT
  | LAZY_SCRIPT
  | SHAPE
  | ACCESSOR_SHAPE
  | BASE_SHAPE
  | OBJECT_GROUP
  | FAT_INLINE_STRING
  | STRING
  | EXTERNAL_STRING
  | FAT_INLINE_ATOM
  | ATOM
  | SYMBOL
  | JITCODE
  | SCOPE
  | REGEXP_SHARED
  deriving DecidableEq, Repr

/-- The integer value of each kind, following the C enum assignment in
`gc/Heap.h` (`FUNCTION = FIRST = 0`, ..., `OBJECT16_BACKGROUND = 13`,
`SCRIPT = OBJECT_LAST + 1 = 14`, ..., `REGEXP_SHARED = 28`). -/
def allocKindValue : AllocKind → Nat
  | .FUNCTION => 0
  | .FUNCTION_EXTENDED => 1
  | .OBJECT0 => 2
  | .OBJECT0_BACKGROUND => 3
  | .OBJECT2 => 4
  | .OBJECT2_BACKGROUND => 5
  | .OBJECT4 => 6
  | .OBJECT4_BACKGROUND => 7
  | .OBJECT8 => 8
  | .OBJECT8_BACKGROUND => 9
  | .OBJECT12 => 10
  | .OBJECT12_BACKGROUND => 11
  | .OBJECT16 => 12
  | .OBJECT16_BACKGROUND => 13
  | .SCRIPT => 14
  | .LAZY_SCRIPT => 15
  | .SHAPE => 16
  | .ACCESSOR_SHAPE => 17
  | .BASE_SHAPE => 18
  | .OBJECT_GROUP => 19
  | .FAT_INLINE_STRING => 20
  | .STRING => 21
  | .EXTERNAL_STRING => 22
  | .FAT_INLINE_ATOM => 23
  | .ATOM => 24
  | .SYMBOL => 25
  | .JITCODE => 26
  | .SCOPE => 27
  | .REGEXP_SHARED => 28

/-- `AllocKind::LIMIT` from the enum in `gc/Heap.h`: the enumerator following
`REGEXP_SHARED`, i.e. `29`. -/
def allocKindLIMIT : Nat := 29

/-- All valid alloc kinds, in enum-value order (the order of
`FOR_EACH_ALLOCKIND` in `gc/Heap.h`). -/
def allocKindList : List AllocKind :=
  [.FUNCTION, .FUNCTION_EXTENDED, .OBJECT0, .OBJECT0_BACKGROUND,
   .OBJECT2, .OBJECT2_BACKGROUND, .OBJECT4, .OBJECT4_BACKGROUND,
   .OBJECT8, .OBJECT8_BACKGROUND, .OBJECT12, .OBJECT12_BACKGROUND,
   .OBJECT16, .OBJECT16_BACKGROUND, .SCRIPT, .LAZY_SCRIPT,
   .SHAPE, .ACCESSOR_SHAPE, .BASE_SHAPE, .OBJECT_GROUP,
   .FAT_INLINE_STRING, .STRING, .EXTERNAL_STRING, .FAT_INLINE_ATOM,
   .ATOM, .SYMBOL, .JITCODE, .SCOPE, .REGEXP_SHARED]

/-- The static initializer of `map[]` in `IsNurseryAllocable` (`jsgc.h`),
one `Bool` per kind in enum-value order. -/
def isNurseryAllocableMap : List Bool :=
  [true,  true,  false, true,  false, true,  false, true,
   false, true,  false, true,  false, true,  false, false,
   false, false, false, false, false, false, false, false,
   false, false, false, false, false]

/-- `IsNurseryAllocable` (`jsgc.h`): `return map[size_t(kind)];`. -/
def IsNurseryAllocable (kind : AllocKind) : Bool :=
  isNurseryAllocableMap.getD (allocKindValue kind) false

/-- The static initializer of `map[]` in `IsBackgroundFinalized` (`jsgc.h`),
one `Bool` per kind in enum-value order. -/
def isBackgroundFinalizedMap : List Bool :=
  [true,  true,  false, true,  false, true,  false, true,
   false, true,  false, true,  false, true,  false, true,
   true,  true,  true,  true,  true,  true,  true,  true,
   true,  true,  false, true,  true]

/-- `IsBackgroundFinalized` (`jsgc.h`): `return map[size_t(kind)];`. -/
def IsBackgroundFinalized (kind : AllocKind) : Bool :=
  isBackgroundFinalizedMap.getD (allocKindValue kind) false

/-- The trace kinds used by the cell registry (`JS::TraceKind`), restricted to
the constructors that appear in `MapAllocToTraceKind` and in the
`Cell::getTraceKind` switch, plus `Null` (the default branch of the switch). -/
inductive TraceKind where
  | Object
  | Script
  | LazyScript
  | Shape
  | BaseShape
  | ObjectGroup
  | String
  | Symbol
  | JitCode
  | Scope
  | RegExpShared
  | Null
  deriving DecidableEq, Repr

/-- The static `map[]` of `MapAllocToTraceKind` (`gc/Heap.h`), produced by
expanding `FOR_EACH_ALLOCKIND(EXPAND_ELEMENT)`: one trace kind per alloc kind
in enum-value order. -/
def mapAllocToTraceKindTable : List TraceKind :=
  [.Object, .Object, .Object, .Object, .Object, .Object, .Object,
   .Object, .Object, .Object, .Object, .Object, .Object, .Object,
   .Script, .LazyScript, .Shape, .Shape, .BaseShape, .ObjectGroup,
   .String, .String, .String, .String, .String, .Symbol,
   .JitCode, .Scope, .RegExpShared]

/-- `MapAllocToTraceKind` (`gc/Heap.h`): `return map[size_t(kind)];`. -/
def MapAllocToTraceKind (kind : AllocKind) : TraceKind :=
  mapAllocToTraceKindTable.getD (allocKindValue kind) TraceKind.Null

namespace Cell

/-- `Cell::setAllocKind` (`gc/Heap.h`):
`flags_ = (Flags)((((int)allocKind) | 829952) << 2);`.
`Flags` is `uintptr_t`; the result is reduced modulo `2 ^ 64`. -/
def setAllocKind (v : Nat) : Nat := ((v ||| 829952) <<< 2) % 2 ^ 64

/-- The value computed by `Cell::getAllocKind` (`gc/Heap.h`):
`(AllocKind)((flags_ >> 2) & ~829952)`, with `~829952` the 64-bit complement
of the tag mask. -/
def getAllocKind (flags : Nat) : Nat := (flags >>> 2) &&& (2 ^ 64 - 1 - 829952)

/-- The debug assertion inside `Cell::getAllocKind` (`gc/Heap.h`):
`MOZ_ASSERT(((flags_ >> 2) & 829952) == 829952)`. -/
def getAllocKindAssert (flags : Nat) : Bool := ((flags >>> 2) &&& 829952) == 829952

/-- `Cell::getTraceKind` (`gc/Heap.h`): the switch over `getAllocKind()`,
written over the raw enum values assigned in `gc/Heap.h`; the `default`
branch returns `JS::TraceKind::Null`. -/
def getTraceKind (flags : Nat) : TraceKind :=
  match getAllocKind flags with
  | 2 | 3 | 4 | 5 | 6 | 7 | 8 | 9 | 10 | 11 | 12 | 13 | 0 | 1 => .Object
  | 14 => .Script
  | 15 => .LazyScript
  | 16 | 17 => .Shape
  | 18 => .BaseShape
  | 19 => .ObjectGroup
  | 20 | 23 | 21 | 22 | 24 => .String
  | 25 => .Symbol
  | 26 => .JitCode
  | 27 => .Scope
  | 28 => .RegExpShared
  | _ => .Null

end Cell

/-- The incremental driver states, from the `GCSTATES` macro in `jsgc.h`. -/
inductive State where
  | NotActive
  | MarkRoots
  | Mark
  | Sweep
  | Finalize
  | Compact
  | Decommit
  deriving DecidableEq, Repr

/-- Modelled from the spec: the public invocation kinds accepted by the
driver's `gc` entry (`JSGCInvocationKind` is declared in `jsapi.h`, which is
not under `src/`; only the two standard values exist). -/
inductive JSGCInvocationKind where
  | GC_NORMAL
  | GC_SHRINK
  deriving DecidableEq, Repr

/-- Modelled from the spec: a zone partition of the heap.  The full `JS::Zone`
is not under `src/`; only the marking flag consulted by the pre-barrier
condition of §4.6 is retained. -/
structure Zone where
  isGCMarking : Bool
  deriving DecidableEq, Repr

/-- The driver state carried by `GCRuntime` (`gc/GCRuntime.h`:
`ActiveThreadOrGCTaskData<State> incrementalState`). -/
structure GCRuntime where
  incrementalState : State
  deriving DecidableEq, Repr

/-- The `GCRuntime` constructor initializer list (`jsgc.cpp`):
`incrementalState(gc::State::NotActive)`. -/
def GCRuntime.initial : GCRuntime := { incrementalState := State.NotActive }

/-- `GCRuntime::gc` (`gc/GCRuntime.h`):
`void gc(JSGCInvocationKind gckind, JS::gcreason::Reason reason) {}` — the
body is empty, so the runtime state is returned unchanged.  The reason
argument is an opaque enum value, modelled as `Nat`. -/
def GCRuntime.gc (g : GCRuntime) (_gckind : JSGCInvocationKind) (_reason : Nat) :
    GCRuntime := g

/-- `GCRuntime::state` (`gc/GCRuntime.h`): `return incrementalState;`. -/
def GCRuntime.state (g : GCRuntime) : State := g.incrementalState

/-- `GCRuntime::maybeGC` (`jsgc.cpp`): the body is empty. -/
def GCRuntime.maybeGC (g : GCRuntime) (_zone : Zone) : GCRuntime := g

/-- `GCRuntime::checkAllocatorState` (`gc/Allocator.cpp`): `return true;`. -/
def GCRuntime.checkAllocatorState (_g : GCRuntime) (_kind : AllocKind) : Bool :=
  true

/-- Modelled from the spec: the sentinel for an unlimited time budget.  The
constant is declared in `js/public/SliceBudget.h`, which is not under `src/`;
the spec (§4.11) only distinguishes finite bounds from the unlimited budget,
so the sentinel value itself is irrelevant to the claims. -/
def UnlimitedTimeBudget : Int := -1

/-- Modelled from the spec: the sentinel for an unlimited work budget (see
`UnlimitedTimeBudget`). -/
def UnlimitedWorkBudget : Int := -1

/-- The slice budget fields set by the three `SliceBudget` constructors in
`jsgc.cpp`. -/
structure SliceBudget where
  timeBudget : Int
  workBudget : Int
  deriving DecidableEq, Repr

/-- `SliceBudget::SliceBudget()` (`jsgc.cpp`): the unlimited budget. -/
def SliceBudget.unlimited : SliceBudget :=
  { timeBudget := UnlimitedTimeBudget, workBudget := UnlimitedWorkBudget }

/-- `SliceBudget::SliceBudget(TimeBudget time)` (`jsgc.cpp`). -/
def SliceBudget.ofTime (time : Int) : SliceBudget :=
  { timeBudget := time, workBudget := UnlimitedWorkBudget }

/-- `SliceBudget::SliceBudget(WorkBudget work)` (`jsgc.cpp`). -/
def SliceBudget.ofWork (work : Int) : SliceBudget :=
  { timeBudget := UnlimitedTimeBudget, workBudget := work }

/-- `SliceBudget::checkOverBudget` (`jsgc.cpp`): `return false;`. -/
def SliceBudget.checkOverBudget (_b : SliceBudget) : Bool := false

/-- Modelled from the spec: the mark store of the external OMR collector.
`IsMarkedInternalCommon` (`gc/Marking.cpp`) delegates the query to
`getMarkingScheme()->isMarked(thing)`, whose implementation lives outside the
repository; it is modelled as the list of marked cell identifiers. -/
abbrev OMRMarkState := List Nat

/-- `IsMarkedCell` (`gc/Marking.cpp`), via `IsMarkedUnbarriered` and
`IsMarkedInternalCommon`: a membership query on the external mark store. -/
def IsMarkedCell (s : OMRMarkState) (cell : Nat) : Bool := s.contains cell

/-- Mark colors from `enum class MarkColor : uint32_t` in `gc/Heap.h`. -/
inductive MarkColor where
  | Black
  | Gray
  deriving DecidableEq, Repr

namespace TenuredCell

/-- `TenuredCell::isMarkedAny` (`gc/Heap.h`): `return IsMarkedCell(this);`. -/
def isMarkedAny (s : OMRMarkState) (cell : Nat) : Bool := IsMarkedCell s cell

/-- `TenuredCell::isMarkedBlack` (`gc/Heap.h`): `return IsMarkedCell(this);`. -/
def isMarkedBlack (s : OMRMarkState) (cell : Nat) : Bool := IsMarkedCell s cell

/-- `TenuredCell::markIfUnmarked` (`gc/Heap.h`): the body is `return true;`.
It never touches the mark store, so the pair returned is the constant `true`
together with the unchanged store. -/
def markIfUnmarked (s : OMRMarkState) (_cell : Nat) (_color : MarkColor) :
    Bool × OMRMarkState := (true, s)

/-- `TenuredCell::writeBarrierPre` (`gc/Heap.h`): the body is empty, so the
mark store is returned unchanged. -/
def writeBarrierPre (s : OMRMarkState) (_thing : Nat) : OMRMarkState := s

end TenuredCell

/-- `Cell::needWriteBarrierPre` (`gc/Heap.h`): `return false;`. -/
def Cell.needWriteBarrierPre (_zone : Zone) : Bool := false

/-- `enum InitialHeap` from `gc/Heap.h`. -/
inductive InitialHeap where
  | DefaultHeap
  | TenuredHeap
  deriving DecidableEq, Repr

/-- The allocation entry invoked by `js::Allocate`.  The current source
(`gc/Allocator.cpp`) funnels every allocation into
`rt->gc.nursery().allocateObject(...)`; the `tenured` constructor expresses the
routing alternative the spec describes (§4.3) and is needed to state claim C3. -/
inductive AllocEntry where
  | nursery
  | tenured
  deriving DecidableEq, Repr

/-- The observable outcome of one `js::Allocate` call: the returned cell (its
header word), how many times the nursery allocation entry was invoked, and how
many times `GCRuntime::maybeGC` was invoked. -/
structure AllocOutcome where
  result : Option Nat
  nurseryCalls : Nat
  maybeGCCalls : Nat
  deriving DecidableEq, Repr

/-- `js::Allocate<T>(JSContext* cx, AllocKind kind)` (`gc/Allocator.cpp`,
current revision):

```
Cell* obj = rt->gc.nursery().allocateObject(cx, sizeof(T), 0, nullptr, ...);
if (obj != NULL) { obj->setAllocKind(kind); }
return (T*)obj;
```

The nursery allocator (outside `src/`) is abstracted as an oracle giving the
result of each successive attempt; the body makes exactly one attempt, never
invokes `GCRuntime::maybeGC`, and writes the kind header only on a non-null
result.  `setAllocKind` overwrites the whole header word, so the returned
cell's header is `Cell.setAllocKind` of the kind's value. -/
def jsAllocate (nurseryAlloc : Nat → Option Nat) (kind : AllocKind) :
    AllocOutcome :=
  { result :=
      match nurseryAlloc 0 with
      | none => none
      | some _ => some (Cell.setAllocKind (allocKindValue kind)),
    nurseryCalls := 1,
    maybeGCCalls := 0 }

/-- `js::Allocate<JSObject>(JSContext* cx, AllocKind kind, size_t
nDynamicSlots, InitialHeap heap, const Class* clasp)` (`gc/Allocator.cpp`,
current revision):

```
JSObject* obj = rt->gc.nursery().allocateObject(cx, OmrGcHelper::thingSize(kind),
                                                nDynamicSlots, clasp, ...);
if (obj) obj->setAllocKind(kind);
return obj;
```

The body contains a single unconditional call to the nursery allocation entry;
neither `kind` nor `heap` occurs in any branch condition, so the entry taken is
recorded as `AllocEntry.nursery` for every input. -/
def jsAllocateObject (kind : AllocKind) (_nDynamicSlots : Nat)
    (_heap : InitialHeap) (nurseryResult : Option Nat) :
    Option Nat × AllocEntry :=
  (match nurseryResult with
   | none => none
   | some _ => some (Cell.setAllocKind (allocKindValue kind)),
   AllocEntry.nursery)

/-- A memory fault raised by the C abstract machine. -/
inductive MemFault where
  | nullDereference
  deriving DecidableEq, Repr

/-- `js::Allocate<T>(ExclusiveContext* cx, AllocKind kind)`
(`js/src/gc/Allocator.cpp`, older revision):

```
Cell* obj = rt->gc.nursery.allocateObject(ncx, sizeof(T), 0, nullptr, ...);
obj->setAllocKind(kind);
return (T*)obj;
```

`obj->setAllocKind(kind)` is executed unconditionally; when the nursery
returns null this dereferences the null pointer, modelled as `MemFault`. -/
def jsAllocateExclusive (nurseryResult : Option Nat) (kind : AllocKind) :
    Except MemFault (Option Nat) :=
  match nurseryResult with
  | none => Except.error MemFault.nullDereference
  | some _ => Except.ok (some (Cell.setAllocKind (allocKindValue kind)))

/-- A nursery allocation oracle whose first attempt fails and whose second
attempt would succeed (returning a fresh cell with header word `0`). -/
def failThenSucceed : Nat → Option Nat :=
  fun attempt => if attempt = 0 then none else some 0

/-- C1: evaluation of the pre-barrier at the failing input.  With the owning
zone marking (`Zone.isGCMarking = true`) and cell `0` unmarked in the mark
store, `Cell::needWriteBarrierPre` still answers `false` and
`TenuredCell::writeBarrierPre` leaves the mark store unchanged, so the
previous value is not marked black — contradicting the claimed
snapshot-at-the-beginning effect. -/
theorem C1_pre_barrier_eval :
    Cell.needWriteBarrierPre { isGCMarking := true } = false ∧
    TenuredCell.writeBarrierPre [] 0 = [] ∧
    TenuredCell.isMarkedBlack (TenuredCell.writeBarrierPre [] 0) 0 = false ∧
    (∀ (s : OMRMarkState) (thing : Nat), TenuredCell.writeBarrierPre s thing = s) ∧
    (∀ zone : Zone, Cell.needWriteBarrierPre zone = false) :=
  ⟨rfl, rfl, rfl, fun _ _ => rfl, fun _ => rfl⟩

/-- C2 counterexample: the allocation oracle fails on the first attempt and
would succeed on a retry, yet `js::Allocate` makes exactly one nursery
attempt, never calls `GCRuntime::maybeGC`, and returns null — so the claimed
contract (one maybe-GC call and exactly one retry) is false at this input. -/
theorem C2_counterexample :
    (jsAllocate failThenSucceed AllocKind.OBJECT0).result = none ∧
    (jsAllocate failThenSucceed AllocKind.OBJECT0).nurseryCalls = 1 ∧
    (jsAllocate failThenSucceed AllocKind.OBJECT0).maybeGCCalls = 0 ∧
    ¬((jsAllocate failThenSucceed AllocKind.OBJECT0).nurseryCalls = 2 ∧
      1 ≤ (jsAllocate failThenSucceed AllocKind.OBJECT0).maybeGCCalls) := by
  decide

/-- C2 amended: `js::Allocate` makes a single nursery allocation attempt and
forwards its outcome — on failure it returns null (OOM) to the caller without
invoking `GCRuntime::maybeGC` and without retrying; `GCRuntime::maybeGC` is in
any case a no-op and `GCRuntime::checkAllocatorState` always reports ok. -/
theorem C2_single_attempt_contract (alloc : Nat → Option Nat) (kind : AllocKind) :
    (jsAllocate alloc kind).nurseryCalls = 1 ∧
    (jsAllocate alloc kind).maybeGCCalls = 0 ∧
    ((jsAllocate alloc kind).result = none ↔ alloc 0 = none) ∧
    (∀ (g : GCRuntime) (zone : Zone), GCRuntime.maybeGC g zone = g) ∧
    (∀ (g : GCRuntime) (k : AllocKind), GCRuntime.checkAllocatorState g k = true) := by
  refine ⟨rfl, rfl, ?_, fun _ _ => rfl, fun _ _ => rfl⟩
  cases h : alloc 0 <;> simp [jsAllocate, h]

/-- C3 counterexample: `SCRIPT` is not nursery-allocable according to
`IsNurseryAllocable`, yet `js::Allocate<JSObject>` routes it to the nursery
entry; likewise a `TenuredHeap` hint does not force the tenured path. -/
theorem C3_counterexample :
    IsNurseryAllocable AllocKind.SCRIPT = false ∧
    (jsAllocateObject AllocKind.SCRIPT 0 InitialHeap.DefaultHeap (some 0)).2 =
      AllocEntry.nursery ∧
    (jsAllocateObject AllocKind.OBJECT0 0 InitialHeap.TenuredHeap (some 0)).2 =
      AllocEntry.nursery ∧
    AllocEntry.nursery ≠ AllocEntry.tenured := by
  decide

/-- C3 amended: allocation routing ignores the kind metadata table and the
heap hint — every allocation is forwarded to the nursery (OMR) allocation
entry, even though `IsNurseryAllocable` still classifies `SCRIPT`, `SHAPE`,
`STRING` and `ATOM` as not nursery-allocable. -/
theorem C3_always_nursery (kind : AllocKind) (nDynamicSlots : Nat)
    (heap : InitialHeap) (nurseryResult : Option Nat) :
    (jsAllocateObject kind nDynamicSlots heap nurseryResult).2 =
      AllocEntry.nursery ∧
    IsNurseryAllocable AllocKind.SCRIPT = false ∧
    IsNurseryAllocable AllocKind.SHAPE = false ∧
    IsNurseryAllocable AllocKind.STRING = false ∧
    IsNurseryAllocable AllocKind.ATOM = false :=
  ⟨rfl, rfl, rfl, rfl, rfl⟩

/-- C4: evaluation of the slice budget at the failing input.  A work budget of
`0` is already consumed, and a time budget of `0` has already expired, yet
`SliceBudget::checkOverBudget` reports `false`; indeed it reports `false` for
every budget, so no slice ever yields for budget exhaustion. -/
theorem C4_checkOverBudget_eval :
    (SliceBudget.ofWork 0).checkOverBudget = false ∧
    (SliceBudget.ofTime 0).checkOverBudget = false ∧
    (∀ b : SliceBudget, b.checkOverBudget = false) :=
  ⟨rfl, rfl, fun _ => rfl⟩

/-- C5 counterexample: the kind registry has `29` kinds and each static
metadata table has `29` rows, not `27` as claimed. -/
theorem C5_counterexample :
    allocKindList.length = 29 ∧
    isNurseryAllocableMap.length = 29 ∧
    isBackgroundFinalizedMap.length = 29 ∧
    mapAllocToTraceKindTable.length = 29 ∧
    allocKindList.length ≠ 27 := by
  decide

/-- C5 amended: the registry defines exactly `29` named kinds
(`AllocKind::LIMIT = 29`), the enumeration lists each kind exactly once, and
each static per-kind metadata table has exactly one row per kind, i.e. `29`
rows. -/
theorem C5_registry_cardinality :
    allocKindList.length = allocKindLIMIT ∧
    allocKindLIMIT = 29 ∧
    allocKindList.Nodup ∧
    (∀ k : AllocKind, k ∈ allocKindList) ∧
    isNurseryAllocableMap.length = allocKindLIMIT ∧
    isBackgroundFinalizedMap.length = allocKindLIMIT ∧
    mapAllocToTraceKindTable.length = allocKindLIMIT := by
  refine ⟨rfl, rfl, by decide, fun k => ?_, rfl, rfl, rfl⟩
  cases k <;> decide

/-- C6: evaluation of the driver entry at the failing input.  Starting from
the freshly constructed runtime (state `NotActive`), a call to
`GCRuntime::gc` leaves the state `NotActive` — the driver never enters
`MarkRoots`, because the body of `gc` is empty and `incrementalState` is never
assigned after construction. -/
theorem C6_gc_entry_eval :
    GCRuntime.initial.state = State.NotActive ∧
    (GCRuntime.initial.gc JSGCInvocationKind.GC_NORMAL 0).state =
      State.NotActive ∧
    (GCRuntime.initial.gc JSGCInvocationKind.GC_NORMAL 0).state ≠
      State.MarkRoots ∧
    (∀ (g : GCRuntime) (gckind : JSGCInvocationKind) (reason : Nat),
      (GCRuntime.gc g gckind reason).incrementalState = g.incrementalState) := by
  refine ⟨rfl, rfl, by decide, fun _ _ _ => rfl⟩

/-- C7: evaluation of `markIfUnmarked` at the failing input.  On a cell that
is already marked (`isMarkedBlack` answers `true`), `markIfUnmarked` still
returns `true` — and it returns `true` again on a repeated call — while never
changing the mark store; its contract comment requires the return value to
indicate an unmarked-to-marked transition, hence `false` on an already-marked
cell. -/
theorem C7_markIfUnmarked_eval :
    TenuredCell.isMarkedBlack [0] 0 = true ∧
    (TenuredCell.markIfUnmarked [0] 0 MarkColor.Black).1 = true ∧
    (TenuredCell.markIfUnmarked
      (TenuredCell.markIfUnmarked [] 0 MarkColor.Black).2 0 MarkColor.Black).1 =
      true ∧
    (∀ (s : OMRMarkState) (cell : Nat) (color : MarkColor),
      (TenuredCell.markIfUnmarked s cell color).2 = s) := by
  refine ⟨rfl, rfl, rfl, fun _ _ _ => rfl⟩

/-- C8: for every valid alloc kind `k`, the header written by
`Cell::setAllocKind(k)` decodes back to exactly `k` under
`Cell::getAllocKind`, and the debug assertion on the embedded tag mask
`829952` succeeds, because the tag bits (lowest bit `2 ^ 9`) are disjoint from
every valid kind value (`< 29`). -/
theorem C8_allocKind_roundtrip :
    ∀ k : AllocKind,
      allocKindValue k < allocKindLIMIT ∧
      Cell.getAllocKind (Cell.setAllocKind (allocKindValue k)) =
        allocKindValue k ∧
      Cell.getAllocKindAssert (Cell.setAllocKind (allocKindValue k)) = true := by
  intro k
  cases k <;> exact ⟨by decide, by decide, by decide⟩

/-- C9: for every valid alloc kind `k`, the switch-based `Cell::getTraceKind`
on a header holding `k` agrees with the static table `MapAllocToTraceKind`,
and the `Null` default branch of the switch is never taken. -/
theorem C9_traceKind_agreement :
    ∀ k : AllocKind,
      Cell.getTraceKind (Cell.setAllocKind (allocKindValue k)) =
        MapAllocToTraceKind k ∧
      Cell.getTraceKind (Cell.setAllocKind (allocKindValue k)) ≠
        TraceKind.Null := by
  intro k
  cases k <;> exact ⟨by decide, by decide⟩

/-- C10: evaluation of the allocators at the failing input (a null nursery
result).  The older `ExclusiveContext`-based generic `Allocate` dereferences
the null pointer by calling `setAllocKind` unconditionally, while the current
`JSContext`-based revision and the `JSObject` overload return null without
writing the kind header. -/
theorem C10_null_safety_eval :
    jsAllocateExclusive none AllocKind.SCRIPT =
      Except.error MemFault.nullDereference ∧
    (jsAllocate (fun _ => none) AllocKind.SCRIPT).result = none ∧
    (jsAllocateObject AllocKind.OBJECT0 0 InitialHeap.DefaultHeap none).1 =
      none :=
  ⟨rfl, rfl, rfl⟩

end GeckoGC
